import Mathlib

/-!
Shallow embedding of the api-caching-proxy repository's cache-resolution core.

Sources embedded here:
- `src/app/api/weather/route.ts` (the Next.js app-router handler `GET`):
  key normalization, Firestore-backed cache read/write, freshness check,
  two-stage upstream fetch, payload transform, provenance tagging,
  `getTimestampInMs`, and the client API-key check.
- `src/pages/api/weather/[city].ts` (the pages-router handler): the same
  freshness formula over an in-memory map, and its API-key check.
- `src/server/server.js` (the Express variant): cache-hit/response tagging.

JavaScript strings are modelled as lists of Unicode code points (`List Nat`);
`toLowerCase`/`trim` act on code points exactly as the ASCII fragment of the
JS operations does.  JS numbers that carry timestamps are modelled as `Int`
(epoch milliseconds); upstream numeric weather fields as `Rat`.
-/

namespace CachingProxy

/-! ## JS string model: code points, toLowerCase, trim -/

/-- A JavaScript string, as its list of Unicode code points. -/
abbrev JsString := List Nat

/-- One code point of `String.prototype.toLowerCase` (ASCII fragment):
uppercase letters U+0041..U+005A shift down by 32, all else unchanged. -/
def toLowerCode (n : Nat) : Nat :=
  if 65 ≤ n ∧ n ≤ 90 then n + 32 else n

/-- `String.prototype.toLowerCase`, code point by code point. -/
def jsToLower (s : JsString) : JsString := s.map toLowerCode

/-- Whether a code point is whitespace for `String.prototype.trim`
(ASCII fragment: TAB, LF, VT, FF, CR, SPACE). -/
def isWhitespaceCode (n : Nat) : Bool :=
  decide (n = 9 ∨ n = 10 ∨ n = 11 ∨ n = 12 ∨ n = 13 ∨ n = 32)

/-- Remove leading whitespace. -/
def jsTrimLeft (s : JsString) : JsString := s.dropWhile isWhitespaceCode

/-- `String.prototype.trim`: drop leading and trailing whitespace. -/
def jsTrim (s : JsString) : JsString :=
  ((jsTrimLeft s).reverse.dropWhile isWhitespaceCode).reverse

/-- The cache key computation `city.toLowerCase().trim()`
(route.ts line 147, [city].ts line 52, server.js line 38). -/
def normalize (s : JsString) : JsString := jsTrim (jsToLower s)

/-! ### Lemmas about the normalization pipeline -/

theorem toLowerCode_idem (n : Nat) : toLowerCode (toLowerCode n) = toLowerCode n := by
  unfold toLowerCode
  by_cases h : 65 ≤ n ∧ n ≤ 90
  · simp only [if_pos h]
    rw [if_neg (by omega)]
  · simp only [if_neg h]

theorem isWhitespaceCode_toLowerCode (n : Nat) :
    isWhitespaceCode (toLowerCode n) = isWhitespaceCode n := by
  unfold toLowerCode isWhitespaceCode
  split
  · simp only [decide_eq_decide]
    omega
  · rfl

theorem jsToLower_idem (s : JsString) : jsToLower (jsToLower s) = jsToLower s := by
  unfold jsToLower
  rw [List.map_map]
  exact List.map_congr_left fun n _ => toLowerCode_idem n

theorem dropWhile_ws_map_toLower (l : JsString) :
    (l.map toLowerCode).dropWhile isWhitespaceCode
      = (l.dropWhile isWhitespaceCode).map toLowerCode := by
  induction l with
  | nil => rfl
  | cons a t ih =>
    simp only [List.map_cons, List.dropWhile_cons, isWhitespaceCode_toLowerCode]
    cases h : isWhitespaceCode a with
    | true => simpa [h] using ih
    | false => simp [h]

theorem head_dropWhile_ws (l : JsString) (a : Nat)
    (h : (l.dropWhile isWhitespaceCode).head? = some a) :
    isWhitespaceCode a = false := by
  induction l with
  | nil => simp at h
  | cons b t ih =>
    rw [List.dropWhile_cons] at h
    by_cases hb : isWhitespaceCode b
    · rw [if_pos hb] at h
      exact ih h
    · rw [if_neg hb] at h
      simp only [List.head?_cons, Option.some.injEq] at h
      subst h
      exact Bool.not_eq_true _ |>.mp hb

theorem dropWhile_ws_eq_self (l : JsString)
    (h : ∀ a, l.head? = some a → isWhitespaceCode a = false) :
    l.dropWhile isWhitespaceCode = l := by
  cases l with
  | nil => rfl
  | cons b t =>
    rw [List.dropWhile_cons, if_neg]
    simp [h b rfl]

theorem dropWhile_ws_is_tail_part (l : JsString) :
    ∃ u, l = u ++ l.dropWhile isWhitespaceCode := by
  induction l with
  | nil => exact ⟨[], rfl⟩
  | cons b t ih =>
    rw [List.dropWhile_cons]
    by_cases hb : isWhitespaceCode b
    · obtain ⟨u, hu⟩ := ih
      exact ⟨b :: u, by rw [if_pos hb]; simpa using hu⟩
    · exact ⟨[], by rw [if_neg hb]; rfl⟩

theorem head_append_of_head {α : Type} (l₁ l₂ : List α) (a : α)
    (h : l₁.head? = some a) : (l₁ ++ l₂).head? = some a := by
  cases l₁ with
  | nil => simp at h
  | cons b t => simp_all

theorem jsTrim_head_ok (s : JsString) (a : Nat)
    (h : (jsTrim s).head? = some a) : isWhitespaceCode a = false := by
  obtain ⟨u, hu⟩ := dropWhile_ws_is_tail_part (jsTrimLeft s).reverse
  have hs : jsTrimLeft s = jsTrim s ++ u.reverse := by
    calc jsTrimLeft s = (jsTrimLeft s).reverse.reverse := by rw [List.reverse_reverse]
    _ = (u ++ (jsTrimLeft s).reverse.dropWhile isWhitespaceCode).reverse := by rw [← hu]
    _ = jsTrim s ++ u.reverse := by rw [List.reverse_append]; rfl
  have h2 : (jsTrimLeft s).head? = some a := by
    rw [hs]; exact head_append_of_head _ _ a h
  exact head_dropWhile_ws s a h2

theorem jsTrim_reverse_head_ok (s : JsString) (a : Nat)
    (h : (jsTrim s).reverse.head? = some a) : isWhitespaceCode a = false := by
  unfold jsTrim at h
  rw [List.reverse_reverse] at h
  exact head_dropWhile_ws (jsTrimLeft s).reverse a h

theorem jsTrim_eq_self (t : JsString)
    (h1 : ∀ a, t.head? = some a → isWhitespaceCode a = false)
    (h2 : ∀ a, t.reverse.head? = some a → isWhitespaceCode a = false) :
    jsTrim t = t := by
  unfold jsTrim jsTrimLeft
  rw [dropWhile_ws_eq_self t h1, dropWhile_ws_eq_self t.reverse h2, List.reverse_reverse]

theorem jsTrim_idem (s : JsString) : jsTrim (jsTrim s) = jsTrim s :=
  jsTrim_eq_self (jsTrim s) (jsTrim_head_ok s) (jsTrim_reverse_head_ok s)

theorem jsTrim_jsToLower_comm (s : JsString) :
    jsTrim (jsToLower s) = jsToLower (jsTrim s) := by
  unfold jsTrim jsTrimLeft jsToLower
  rw [dropWhile_ws_map_toLower s, ← List.map_reverse, dropWhile_ws_map_toLower,
    ← List.map_reverse]

theorem normalize_idem (s : JsString) : normalize (normalize s) = normalize s := by
  unfold normalize
  rw [← jsTrim_jsToLower_comm (jsToLower s), jsToLower_idem, jsTrim_idem]

theorem normalize_eq_lower_of_trim (s : JsString) :
    normalize s = jsToLower (jsTrim s) := by
  unfold normalize
  exact jsTrim_jsToLower_comm s

/-! ## route.ts data model -/

/-- Rounding of `Math.round(x)`: half-up, i.e. `⌊x + 1/2⌋`. -/
def jsRound (x : Rat) : Int := ⌊x + 1/2⌋

/-- A value read back from the `timestamp` field of a Firestore cache
document, as classified by `isFirestoreTimestamp`/`getTimestampInMs`
(route.ts lines 17-39): an object with a callable `toMillis` property,
a plain number, or anything else. -/
inductive TSValue
  | tsObject (millis : Int)
  | number (n : Int)
  | malformed
deriving DecidableEq, Repr

/-- route.ts lines 29-39: `toMillis()` result for a Timestamp object,
the value itself for a number, and the fallback `0` for any other shape.
The match order mirrors the source: the `toMillis`-object test runs first,
then the `typeof number` test, then the fallback. -/
def getTimestampInMs : TSValue → Int
  | .tsObject m => m
  | .number n => n
  | .malformed => 0

/-- The normalized weather payload, `Omit<WeatherData, 'source'>`
(route.ts lines 79-100): the shape that is cached.  It has no
`source` field; provenance is attached only at the response boundary. -/
structure WeatherRec where
  cityName : String
  country : String
  temperature : Int
  description : String
  windKmh : Rat
  lastUpdated : String
  apparentTemperature : Int
  windGusts : Rat
  cloudCover : Int
  isDay : Int
  humidity : Int
  tempMax : Rat
  tempMin : Rat
deriving DecidableEq, Repr

/-- A Firestore cache document (route.ts lines 97-100).  The write path
stores a plain number timestamp; the read path may see any `TSValue`. -/
structure CacheEntry where
  data : WeatherRec
  timestamp : TSValue
deriving DecidableEq, Repr

/-- First geocoding match (route.ts line 193). -/
structure GeoResult where
  latitude : Rat
  longitude : Rat
  name : String
  country : String
deriving DecidableEq, Repr

/-- The `current` and first-`daily` fields of the Open-Meteo conditions
payload consumed at route.ts lines 225-248.  The two `Option` fields model
`daily.temperature_2m_max[0]` / `..._min[0]`, possibly missing (`?? 0`). -/
structure CurrentPayload where
  temperature_2m : Rat
  apparent_temperature : Rat
  is_day : Int
  weather_code : Nat
  wind_speed_10m : Rat
  wind_gusts_10m : Rat
  relative_humidity_2m : Rat
  cloud_cover : Rat
  time : String
  tempMax0 : Option Rat
  tempMin0 : Option Rat
deriving DecidableEq, Repr

/-- The fixed WMO weather-code lookup table (route.ts lines 104-124). -/
def WEATHER_CODE_MAP : Nat → Option String
  | 0 => some "Clear Sky"
  | 1 => some "Mainly Clear"
  | 2 => some "Partly Cloudy"
  | 3 => some "Overcast"
  | 45 => some "Fog"
  | 48 => some "Depositing Rime Fog"
  | 51 => some "Drizzle, Light"
  | 53 => some "Drizzle, Moderate"
  | 55 => some "Drizzle, Dense"
  | 61 => some "Rain, Slight"
  | 63 => some "Rain, Moderate"
  | 65 => some "Rain, Heavy"
  | 71 => some "Snow, Slight"
  | 73 => some "Snow, Moderate"
  | 75 => some "Snow, Heavy"
  | 95 => some "Thunderstorm"
  | 96 => some "Thunderstorm with Hail"
  | 99 => some "Thunderstorm with Heavy Hail"
  | _ => none

/-- `CACHE_DURATION_MS = 5 * 60 * 1000` (route.ts line 126). -/
def CACHE_DURATION_MS : Int := 5 * 60 * 1000

/-- The `TransformedData` construction (route.ts lines 228-249).  The JS
fallback `WEATHER_CODE_MAP[code] || 'Unknown Condition'` is `getD` here:
no table entry is a falsy string, so `||` fires exactly on a missing key. -/
def transformData (geoCityName country : String) (current : CurrentPayload) : WeatherRec :=
  { cityName := geoCityName
    country := country
    temperature := jsRound current.temperature_2m
    description := (WEATHER_CODE_MAP current.weather_code).getD "Unknown Condition"
    windKmh := (jsRound (current.wind_speed_10m * 10) : Rat) / 10
    lastUpdated := current.time
    apparentTemperature := jsRound current.apparent_temperature
    windGusts := (jsRound (current.wind_gusts_10m * 10) : Rat) / 10
    cloudCover := jsRound current.cloud_cover
    isDay := current.is_day
    humidity := jsRound current.relative_humidity_2m
    tempMax := current.tempMax0.getD 0
    tempMin := current.tempMin0.getD 0 }

/-! ## route.ts resolver embedding -/

/-- Outcome of the Firestore read `getDoc` (route.ts lines 159-174):
document found, document missing, or the read threw (caught at line 175). -/
inductive GetOutcome
  | found (entry : CacheEntry)
  | missing
  | readFailed
deriving DecidableEq, Repr

/-- Outcome of the Firestore write `setDoc` (route.ts line 279);
a throw is caught at line 280 and ignored. -/
inductive PutOutcome
  | succeeded
  | writeFailed
deriving DecidableEq, Repr

/-- Behaviour of the two-stage upstream fetch capability for one
invocation (route.ts lines 181-221): the geocoding stage yields no usable
match (non-ok response or zero results, line 188), the conditions stage
fails (non-ok response or error payload, line 217), the whole fetch
throws (caught at line 288), or both stages succeed. -/
inductive UpstreamResponse
  | geoNotFound
  | weatherFailed (geo : GeoResult)
  | threw
  | success (geo : GeoResult) (current : CurrentPayload)
deriving DecidableEq, Repr

/-- The external collaborators of one `GET` call: whether the Firestore
client initialized (`db` non-null), and what the store read, the upstream
fetch and the store write would do if invoked. -/
structure ResolveEnv where
  hasDb : Bool
  getOutcome : GetOutcome
  upstream : UpstreamResponse
  putOutcome : PutOutcome
deriving DecidableEq, Repr

/-- Provenance tag of a successful response (route.ts `source` field). -/
inductive Provenance
  | cache
  | api
deriving DecidableEq, Repr

/-- The outward result of one `GET` call past the API-key check:
a record with its provenance, or one of the handler's error statuses
(400, 404, 502, 500 in the source). -/
inductive ResolveResult
  | ok (record : WeatherRec) (source : Provenance)
  | badRequest
  | notFound
  | badGateway
  | internalError
deriving DecidableEq, Repr

/-- Observable calls on the external collaborators, in order. -/
inductive Effect
  | storeGet (key : JsString)
  | upstreamFetch (city : JsString)
  | storePut (key : JsString) (entry : CacheEntry)
deriving DecidableEq, Repr

/-- The `GET` handler of route.ts (lines 140-292), past the API-key check,
with the external collaborators supplied by `env`.  Mirrors the source:
reject a missing or empty `city` parameter (line 143, `!city`); compute
`cacheKey = city.toLowerCase().trim()` and capture `now` once (lines
147-148); if the Firestore client exists, read the cache, treating a read
throw as a miss (lines 154-178); on a fresh entry return it tagged
`cache`; otherwise invoke the upstream fetch with the original `city`
(lines 181-221); on success build `TransformedData`, write the cache entry
with the captured `now` ignoring a write throw (lines 251-283), and return
the record tagged `api` (line 286). -/
def resolveGET (cityParam : Option JsString) (now : Int) (env : ResolveEnv) :
    ResolveResult × List Effect :=
  match cityParam with
  | none => (.badRequest, [])
  | some city =>
    if city = [] then (.badRequest, [])
    else
      let cacheKey := normalize city
      let readLog : List Effect := if env.hasDb then [.storeGet cacheKey] else []
      let cachedHit : Option WeatherRec :=
        if env.hasDb then
          match env.getOutcome with
          | .readFailed => none
          | .missing => none
          | .found entry =>
            if now - getTimestampInMs entry.timestamp < CACHE_DURATION_MS then
              some entry.data
            else none
        else none
      match cachedHit with
      | some record => (.ok record .cache, readLog)
      | none =>
        match env.upstream with
        | .geoNotFound => (.notFound, readLog ++ [.upstreamFetch city])
        | .weatherFailed _ => (.badGateway, readLog ++ [.upstreamFetch city])
        | .threw => (.internalError, readLog ++ [.upstreamFetch city])
        | .success geo current =>
          let record := transformData geo.name geo.country current
          let putLog : List Effect :=
            if env.hasDb then [.storePut cacheKey ⟨record, .number now⟩] else []
          (.ok record .api, readLog ++ [.upstreamFetch city] ++ putLog)

/-- Number of upstream-fetch invocations recorded in an effect log. -/
def fetchCount (l : List Effect) : Nat :=
  (l.filter fun e => match e with
    | .upstreamFetch _ => true
    | _ => false).length

/-- The store writes recorded in an effect log, as key/entry pairs. -/
def putEvents (l : List Effect) : List (JsString × CacheEntry) :=
  l.filterMap fun e => match e with
    | .storePut k entry => some (k, entry)
    | _ => none

/-! ## API-key checks of the two Next.js handlers

The handlers compare a request header against an environment variable with
JavaScript strict equality.  The three value shapes that can occur are
`null`, `undefined`, and a string; strict equality identifies equal
strings, `null` with `null`, and `undefined` with `undefined`, and nothing
across those classes. -/

/-- A JavaScript value that an API-key comparison can see. -/
inductive JsVal
  | vNull
  | vUndef
  | vStr (s : String)
deriving DecidableEq, Repr

/-- `request.headers.get('x-api-key')` in the app router (route.ts
line 135): `null` when the header is absent. -/
def appRouterHeaderVal : Option String → JsVal
  | none => .vNull
  | some s => .vStr s

/-- `req.headers['x-api-key']` in the pages router ([city].ts line 36):
`undefined` when the header is absent. -/
def pagesRouterHeaderVal : Option String → JsVal
  | none => .vUndef
  | some s => .vStr s

/-- An environment variable (`process.env...`): `undefined` when unset. -/
def envVal : Option String → JsVal
  | none => .vUndef
  | some s => .vStr s

/-- route.ts lines 135-138: the request passes the key check exactly when
`clientKey !== PUBLIC_TOKEN_FOR_VALIDATION` is false. -/
def appRouterAuthAccepts (headerVal token : Option String) : Bool :=
  appRouterHeaderVal headerVal == envVal token

/-- [city].ts lines 36-39: the request passes the key check exactly when
`clientKey !== CLIENT_SECRET_TOKEN` is false. -/
def pagesRouterAuthAccepts (headerVal token : Option String) : Bool :=
  pagesRouterHeaderVal headerVal == envVal token

/-! ## server.js Express handler embedding (response path) -/

/-- The standardized payload built at server.js lines 74-81. -/
structure StandardizedData where
  city : String
  temperature_c : Rat
  condition : String
  icon : String
  last_updated : String
deriving DecidableEq, Repr

/-- An in-memory cache entry of server.js (lines 84-88): the payload and
an absolute expiry time in epoch milliseconds. -/
structure ExpressCacheEntry where
  data : StandardizedData
  expiry : Int
deriving DecidableEq, Repr

/-- What one `axios.get` to the external API would do (server.js line 63):
throw, carrying the HTTP status of the error response when there is one,
or succeed with a payload. -/
inductive AxiosOutcome
  | throwsWithStatus (status : Option Nat)
  | ok (locationName : String) (tempC : Rat) (conditionText : String) (conditionIcon : String)
deriving DecidableEq, Repr

/-- The string methods available on a JavaScript string value, by name.
`endsWith` exists; the misspelled `endsWuth` invoked at server.js line 79
does not, so reading it yields `undefined` and calling it throws. -/
def jsStringMethod : String → Option (String → String → Bool)
  | "endsWith" => some fun s suf => s.endsWith suf
  | _ => none

/-- The outward response of the Express route (server.js lines 37-111):
a JSON success body with its `source` tag string, or a 500 error with its
`detail` message (the route emits no other statuses past the auth
middleware). -/
inductive ExpressResult
  | jsonOk (body : StandardizedData) (source : String)
  | error500 (detail : String)
deriving DecidableEq, Repr

/-- The `try` block of the Express route's cache-miss path (server.js
lines 56-110, with the `catch` of lines 96-109): a missing external key
throws and is caught with its own message (lines 57-60, 103-104); an axios
failure is caught, a 400-status error mapping to the invalid-city message
(lines 100-102); on an axios success the `standardizedData` literal
evaluates its `icon` field by calling `.endsWuth(...)` on the icon string
— a property no string has — so the construction throws and is caught
before the cache store (line 85) and the `res.json` with
`source: 'EXTERNAL_API_FETCH'` (lines 92-95) are reached.  Were the
method present, the branch would respond with the standardized payload
tagged `'EXTERNAL_API_FETCH'`. -/
def expressFetchPath (nowIso : String) (hasApiKey : Bool) (axios : AxiosOutcome) :
    ExpressResult :=
  if hasApiKey = false then
    .error500 "External API key is missing. Check the .env file."
  else
    match axios with
    | .throwsWithStatus st =>
      if st = some 400 then .error500 "Invalid city name or location not found."
      else .error500 "Failed to fetch weather data."
    | .ok locationName tempC conditionText conditionIcon =>
      match jsStringMethod "endsWuth" with
      | none => .error500 "Failed to fetch weather data."
      | some endsFn =>
        .jsonOk
          { city := locationName
            temperature_c := tempC
            condition := conditionText
            icon := if endsFn conditionIcon "day.png" then "day-icon" else "night-icon"
            last_updated := nowIso }
          "EXTERNAL_API_FETCH"

/-- The `/weather/:city` Express handler past `apiKeyAuth` (server.js
lines 37-111).  A cached entry with `expiry > now` is served with
`source: 'cache'` (lines 44-51); otherwise the fetch path runs. -/
def expressWeatherHandler (nowIso : String) (now : Int)
    (cached : Option ExpressCacheEntry) (hasApiKey : Bool) (axios : AxiosOutcome) :
    ExpressResult :=
  match cached with
  | some entry =>
    if entry.expiry > now then .jsonOk entry.data "cache"
    else expressFetchPath nowIso hasApiKey axios
  | none => expressFetchPath nowIso hasApiKey axios

/-! ## Reduction lemmas for the resolver -/

/-- A found entry within its TTL short-circuits: cache hit, read only. -/
theorem resolveGET_found_fresh (city : JsString) (hcity : city ≠ [])
    (rec : WeatherRec) (ts : TSValue) (now : Int) (up : UpstreamResponse) (p : PutOutcome)
    (h : now - getTimestampInMs ts < CACHE_DURATION_MS) :
    resolveGET (some city) now ⟨true, .found ⟨rec, ts⟩, up, p⟩
      = (.ok rec .cache, [.storeGet (normalize city)]) := by
  simp [resolveGET, hcity, h]

/-- A found entry at or past its TTL behaves exactly like no entry. -/
theorem resolveGET_found_stale (city : JsString) (hcity : city ≠ [])
    (rec : WeatherRec) (ts : TSValue) (now : Int) (up : UpstreamResponse) (p : PutOutcome)
    (h : ¬ (now - getTimestampInMs ts < CACHE_DURATION_MS)) :
    resolveGET (some city) now ⟨true, .found ⟨rec, ts⟩, up, p⟩
      = resolveGET (some city) now ⟨true, .missing, up, p⟩ := by
  simp [resolveGET, hcity, h]

/-- On a missing entry the upstream fetch runs exactly once and the
result is never a cache-tagged record. -/
theorem resolveGET_missing_fetches (city : JsString) (hcity : city ≠ []) (now : Int)
    (up : UpstreamResponse) (p : PutOutcome) :
    fetchCount (resolveGET (some city) now ⟨true, .missing, up, p⟩).2 = 1 ∧
    ∀ rec, (resolveGET (some city) now ⟨true, .missing, up, p⟩).1 ≠ .ok rec .cache := by
  cases up <;> simp [resolveGET, hcity, fetchCount]

/-- A sample record used to instantiate witness statements. -/
def sampleRec : WeatherRec :=
  { cityName := "Paris"
    country := "France"
    temperature := 18
    description := "Clear Sky"
    windKmh := 5
    lastUpdated := "2026-01-01T00:00:00Z"
    apparentTemperature := 17
    windGusts := 8
    cloudCover := 10
    isDay := 1
    humidity := 40
    tempMax := 20
    tempMin := 9 }

/-! ## Claim theorems -/

/-- C1: for a key holding an entry stored at `t0`, a resolve call at `now`
returns the stored record tagged `cache` without invoking the upstream
fetch if and only if `now - t0 < CACHE_DURATION_MS`; at
`now = t0 + TTL - 1` the call is a fresh hit, and at `now = t0 + TTL`
exactly, the miss path (an upstream fetch) is taken. -/
theorem fresh_hit_iff_within_ttl (city : JsString) (hcity : city ≠ [])
    (rec : WeatherRec) (t0 : Int) (up : UpstreamResponse) (p : PutOutcome) :
    (∀ now : Int,
      ((resolveGET (some city) now ⟨true, .found ⟨rec, .number t0⟩, up, p⟩).1 = .ok rec .cache ∧
        fetchCount (resolveGET (some city) now ⟨true, .found ⟨rec, .number t0⟩, up, p⟩).2 = 0)
      ↔ now - t0 < CACHE_DURATION_MS) ∧
    (resolveGET (some city) (t0 + CACHE_DURATION_MS - 1)
        ⟨true, .found ⟨rec, .number t0⟩, up, p⟩).1 = .ok rec .cache ∧
    fetchCount (resolveGET (some city) (t0 + CACHE_DURATION_MS)
        ⟨true, .found ⟨rec, .number t0⟩, up, p⟩).2 = 1 := by
  have hts : getTimestampInMs (.number t0) = t0 := rfl
  refine ⟨fun now => ⟨fun ⟨hres, hcount⟩ => ?_, fun hfresh => ?_⟩, ?_, ?_⟩
  · by_contra hstale
    rw [resolveGET_found_stale city hcity rec _ now up p (by rw [hts]; exact hstale)] at hcount
    have h1 := (resolveGET_missing_fetches city hcity now up p).1
    omega
  · rw [resolveGET_found_fresh city hcity rec _ now up p (by rw [hts]; exact hfresh)]
    exact ⟨rfl, rfl⟩
  · rw [resolveGET_found_fresh city hcity rec _ _ up p (by rw [hts]; omega)]
  · rw [resolveGET_found_stale city hcity rec _ _ up p (by rw [hts]; omega)]
    exact (resolveGET_missing_fetches city hcity _ up p).1

theorem fresh_hit_iff_within_ttl_witness :
    (resolveGET (some [112]) (1000 + CACHE_DURATION_MS - 1)
        ⟨true, .found ⟨sampleRec, .number 1000⟩, .geoNotFound, .succeeded⟩).1
      = .ok sampleRec .cache ∧
    fetchCount (resolveGET (some [112]) (1000 + CACHE_DURATION_MS)
        ⟨true, .found ⟨sampleRec, .number 1000⟩, .geoNotFound, .succeeded⟩).2 = 1 :=
  ⟨(fresh_hit_iff_within_ttl [112] (by decide) sampleRec 1000 .geoNotFound .succeeded).2.1,
   (fresh_hit_iff_within_ttl [112] (by decide) sampleRec 1000 .geoNotFound .succeeded).2.2⟩

/-- C2: on a cold key (entry absent or expired) whose upstream fetch
succeeds, the upstream capability is invoked exactly once and exactly one
store write happens, at the normalized key, carrying the transformed
record and a timestamp equal to the `now` captured at the start of the
call; the call returns that record tagged `api`.  The stored record is a
`WeatherRec`, a structure with no `source`/provenance field — provenance
appears only in the `ResolveResult.ok` response constructor. -/
theorem cold_key_one_fetch_one_put (city : JsString) (hcity : city ≠ [])
    (now : Int) (g : GetOutcome)
    (hcold : g = .missing ∨ ∃ entry, g = .found entry ∧
        CACHE_DURATION_MS ≤ now - getTimestampInMs entry.timestamp)
    (geo : GeoResult) (current : CurrentPayload) (p : PutOutcome) :
    fetchCount (resolveGET (some city) now ⟨true, g, .success geo current, p⟩).2 = 1 ∧
    putEvents (resolveGET (some city) now ⟨true, g, .success geo current, p⟩).2
      = [(normalize city, ⟨transformData geo.name geo.country current, .number now⟩)] ∧
    (resolveGET (some city) now ⟨true, g, .success geo current, p⟩).1
      = .ok (transformData geo.name geo.country current) .api := by
  have hmiss : resolveGET (some city) now ⟨true, g, .success geo current, p⟩
      = resolveGET (some city) now ⟨true, .missing, .success geo current, p⟩ := by
    rcases hcold with rfl | ⟨⟨r, ts⟩, rfl, hstale⟩
    · rfl
    · exact resolveGET_found_stale city hcity r ts now _ p
        (by have h2 : CACHE_DURATION_MS ≤ now - getTimestampInMs ts := hstale; omega)
  rw [hmiss]
  refine ⟨(resolveGET_missing_fetches city hcity now _ p).1, ?_, ?_⟩ <;>
    simp [resolveGET, hcity, putEvents]

theorem cold_key_one_fetch_one_put_witness :
    fetchCount (resolveGET (some [112]) 1000
        ⟨true, .missing, .success ⟨2, 3, "Paris", "France"⟩
          ⟨18, 17, 1, 0, 5, 8, 40, 10, "t0", some 20, some 9⟩, .succeeded⟩).2 = 1 ∧
    putEvents (resolveGET (some [112]) 1000
        ⟨true, .missing, .success ⟨2, 3, "Paris", "France"⟩
          ⟨18, 17, 1, 0, 5, 8, 40, 10, "t0", some 20, some 9⟩, .succeeded⟩).2
      = [(normalize [112],
          ⟨transformData "Paris" "France" ⟨18, 17, 1, 0, 5, 8, 40, 10, "t0", some 20, some 9⟩,
           .number 1000⟩)] ∧
    (resolveGET (some [112]) 1000
        ⟨true, .missing, .success ⟨2, 3, "Paris", "France"⟩
          ⟨18, 17, 1, 0, 5, 8, 40, 10, "t0", some 20, some 9⟩, .succeeded⟩).1
      = .ok (transformData "Paris" "France" ⟨18, 17, 1, 0, 5, 8, 40, 10, "t0", some 20, some 9⟩)
          .api :=
  cold_key_one_fetch_one_put [112] (by decide) 1000 .missing (Or.inl rfl)
    ⟨2, 3, "Paris", "France"⟩ ⟨18, 17, 1, 0, 5, 8, 40, 10, "t0", some 20, some 9⟩ .succeeded

/-- C3: a failing backing store never fails the resolve call.  A read
failure is treated exactly as a miss (same result and same observable
calls, and the upstream fetch runs); the outcome of the store write is
ignored — the result is the same whatever the write does — and on a miss
with a successful fetch and a failing write the call still returns the
freshly fetched record tagged `api`. -/
theorem store_failure_never_fails_resolve (city : JsString) (hcity : city ≠ [])
    (now : Int) :
    (∀ up p, resolveGET (some city) now ⟨true, .readFailed, up, p⟩
        = resolveGET (some city) now ⟨true, .missing, up, p⟩) ∧
    (∀ up p, fetchCount (resolveGET (some city) now ⟨true, .readFailed, up, p⟩).2 = 1) ∧
    (∀ g up p q, (resolveGET (some city) now ⟨true, g, up, p⟩).1
        = (resolveGET (some city) now ⟨true, g, up, q⟩).1) ∧
    (∀ geo current,
      (resolveGET (some city) now ⟨true, .readFailed, .success geo current, .writeFailed⟩).1
        = .ok (transformData geo.name geo.country current) .api) ∧
    (∀ geo current,
      (resolveGET (some city) now ⟨true, .missing, .success geo current, .writeFailed⟩).1
        = .ok (transformData geo.name geo.country current) .api) := by
  refine ⟨fun up p => by simp [resolveGET, hcity], ?_, ?_, ?_, ?_⟩
  · intro up p
    rw [show resolveGET (some city) now ⟨true, .readFailed, up, p⟩
        = resolveGET (some city) now ⟨true, .missing, up, p⟩ from by simp [resolveGET, hcity]]
    exact (resolveGET_missing_fetches city hcity now up p).1
  · intro g up p q
    rfl
  · intro geo current
    simp [resolveGET, hcity]
  · intro geo current
    simp [resolveGET, hcity]

theorem store_failure_never_fails_resolve_witness :
    (resolveGET (some [112]) 1000
        ⟨true, .readFailed, .success ⟨2, 3, "Paris", "France"⟩
          ⟨18, 17, 1, 0, 5, 8, 40, 10, "t0", some 20, some 9⟩, .writeFailed⟩).1
      = .ok (transformData "Paris" "France" ⟨18, 17, 1, 0, 5, 8, 40, 10, "t0", some 20, some 9⟩)
          .api :=
  (store_failure_never_fails_resolve [112] (by decide) 1000).2.2.2.1
    ⟨2, 3, "Paris", "France"⟩ ⟨18, 17, 1, 0, 5, 8, 40, 10, "t0", some 20, some 9⟩

/-- C4: when the cache entry is expired (`now - t0 ≥ CACHE_DURATION_MS`)
the entry is treated identically to an absent one: the whole call — result
and observable effects — equals the call with no entry, and if the
subsequent upstream fetch fails the corresponding error (404 for zero
geocoding matches, 502 for a failed conditions call) is returned, never
the stale record. -/
theorem expired_entry_no_stale_fallback (city : JsString) (hcity : city ≠ [])
    (rec : WeatherRec) (t0 now : Int) (hexp : CACHE_DURATION_MS ≤ now - t0)
    (p : PutOutcome) :
    (∀ up, resolveGET (some city) now ⟨true, .found ⟨rec, .number t0⟩, up, p⟩
        = resolveGET (some city) now ⟨true, .missing, up, p⟩) ∧
    (resolveGET (some city) now ⟨true, .found ⟨rec, .number t0⟩, .geoNotFound, p⟩).1
      = .notFound ∧
    (∀ geo,
      (resolveGET (some city) now ⟨true, .found ⟨rec, .number t0⟩, .weatherFailed geo, p⟩).1
        = .badGateway) := by
  have hstale : ∀ up, resolveGET (some city) now ⟨true, .found ⟨rec, .number t0⟩, up, p⟩
      = resolveGET (some city) now ⟨true, .missing, up, p⟩ := fun up =>
    resolveGET_found_stale city hcity rec _ now up p (by show ¬(now - t0 < _); omega)
  refine ⟨hstale, ?_, fun geo => ?_⟩
  · rw [hstale .geoNotFound]
    simp [resolveGET, hcity]
  · rw [hstale (.weatherFailed geo)]
    simp [resolveGET, hcity]

theorem expired_entry_no_stale_fallback_witness :
    (resolveGET (some [112]) (1000 + CACHE_DURATION_MS)
        ⟨true, .found ⟨sampleRec, .number 1000⟩, .geoNotFound, .succeeded⟩).1 = .notFound :=
  (expired_entry_no_stale_fallback [112] (by decide) sampleRec 1000
    (1000 + CACHE_DURATION_MS) (by omega) .succeeded).2.1

/-- C5: key normalization is idempotent, and two raw inputs that agree up
to letter case and leading/trailing whitespace (equal after trimming and
lower-casing) map to the same cache key. -/
theorem normalize_idempotent_and_key_invariant (s t : JsString) :
    normalize (normalize s) = normalize s ∧
    (jsToLower (jsTrim s) = jsToLower (jsTrim t) → normalize s = normalize t) := by
  refine ⟨normalize_idem s, fun h => ?_⟩
  rw [normalize_eq_lower_of_trim, normalize_eq_lower_of_trim, h]

theorem normalize_idempotent_and_key_invariant_witness :
    normalize (normalize [32, 76, 79, 78, 68, 79, 78, 32])
      = normalize [32, 76, 79, 78, 68, 79, 78, 32] ∧
    normalize [32, 76, 79, 78, 68, 79, 78, 32] = normalize [108, 111, 110, 100, 111, 110] :=
  ⟨(normalize_idempotent_and_key_invariant [32, 76, 79, 78, 68, 79, 78, 32]
      [108, 111, 110, 100, 111, 110]).1,
   (normalize_idempotent_and_key_invariant [32, 76, 79, 78, 68, 79, 78, 32]
      [108, 111, 110, 100, 111, 110]).2 (by decide)⟩

/-- The handler returns the bad-request (invalid input) error only from
the initial parameter check, never from a later branch. -/
theorem resolveGET_ne_badRequest (city : JsString) (hcity : city ≠ []) (now : Int)
    (env : ResolveEnv) : (resolveGET (some city) now env).1 ≠ .badRequest := by
  obtain ⟨db, g, up, p⟩ := env
  cases db <;> cases g <;> cases up <;> simp [resolveGET, hcity] <;> split <;> simp

/-- C6 counterexample: the all-whitespace city `" "` (code point 32) is
not rejected as invalid input — the handler proceeds to query the store
under the empty-string cache key and to invoke the upstream fetch. -/
theorem whitespace_city_not_rejected :
    resolveGET (some [32]) 1000 ⟨true, .missing, .geoNotFound, .succeeded⟩
      = (.notFound, [.storeGet [], .upstreamFetch [32]]) := by
  decide

/-- C6 (amended): resolve fails with the invalid-input error exactly when
the city parameter is absent or the empty string; a city that is nonempty
but all whitespace is not rejected — the `!city` check only catches the
empty string — and such a request proceeds to the cache and fetch path. -/
theorem invalid_input_iff_absent_or_empty (cityParam : Option JsString) (now : Int)
    (env : ResolveEnv) :
    (resolveGET cityParam now env).1 = .badRequest ↔
      (cityParam = none ∨ cityParam = some []) := by
  cases cityParam with
  | none => simp [resolveGET]
  | some c =>
    by_cases hc : c = []
    · subst hc
      simp [resolveGET]
    · simp only [Option.some.injEq, reduceCtorEq, false_or]
      exact ⟨fun h => absurd h (resolveGET_ne_badRequest c hc now env),
        fun h => absurd h hc⟩

theorem invalid_input_iff_absent_or_empty_witness :
    (resolveGET (some []) 0 ⟨true, .missing, .geoNotFound, .succeeded⟩).1 = .badRequest :=
  (invalid_input_iff_absent_or_empty (some []) 0
    ⟨true, .missing, .geoNotFound, .succeeded⟩).mpr (Or.inr rfl)

/-- Every success response the Express route produces is a cache hit
tagged `"cache"`: the fetch branch aborts at the `endsWuth` call before
its `res.json` line runs. -/
theorem expressFetchPath_not_jsonOk (nowIso : String) (hasApiKey : Bool)
    (axios : AxiosOutcome) (d : StandardizedData) (s : String) :
    expressFetchPath nowIso hasApiKey axios ≠ .jsonOk d s := by
  unfold expressFetchPath
  cases hasApiKey
  · simp
  · cases axios with
    | throwsWithStatus st =>
      simp only [Bool.true_eq_false, if_false]
      split <;> simp
    | ok a b c e =>
      rw [show jsStringMethod "endsWuth" = none from rfl]
      simp

theorem express_success_source_cache (nowIso : String) (now : Int)
    (cached : Option ExpressCacheEntry) (hasApiKey : Bool) (axios : AxiosOutcome)
    (d : StandardizedData) (s : String)
    (h : expressWeatherHandler nowIso now cached hasApiKey axios = .jsonOk d s) :
    s = "cache" := by
  rcases cached with _ | entry
  · exact absurd h (expressFetchPath_not_jsonOk nowIso hasApiKey axios d s)
  · rw [show expressWeatherHandler nowIso now (some entry) hasApiKey axios
        = if entry.expiry > now then .jsonOk entry.data "cache"
          else expressFetchPath nowIso hasApiKey axios from rfl] at h
    by_cases hexp : entry.expiry > now
    · rw [if_pos hexp] at h
      injection h with h1 h2
      exact h2.symm
    · rw [if_neg hexp] at h
      exact absurd h (expressFetchPath_not_jsonOk nowIso hasApiKey axios d s)

/-- C7: every successful response carries provenance `cache` or `api`:
the fresh-hit path tags `cache`, a miss that completes the upstream fetch
tags `api`, and no produced success response carries any other tag.  In
the Express variant the fetch branch textually constructs the tag
`'EXTERNAL_API_FETCH'`, but it is unreachable: building
`standardizedData` calls the nonexistent string method `endsWuth` and
throws first, so the only success responses that route produces are cache
hits tagged `"cache"`. -/
theorem provenance_tag_cache_or_api :
    (∀ cityParam now env rec s,
      (resolveGET cityParam now env).1 = .ok rec s → s = .cache ∨ s = .api) ∧
    (∀ city, city ≠ [] → ∀ rec ts now up p,
      now - getTimestampInMs ts < CACHE_DURATION_MS →
      (resolveGET (some city) now ⟨true, .found ⟨rec, ts⟩, up, p⟩).1 = .ok rec .cache) ∧
    (∀ city, city ≠ [] → ∀ now geo current p,
      (resolveGET (some city) now ⟨true, .missing, .success geo current, p⟩).1
        = .ok (transformData geo.name geo.country current) .api) ∧
    (∀ nowIso now cached hasKey axios d s,
      expressWeatherHandler nowIso now cached hasKey axios = .jsonOk d s →
      s = "cache" ∨ s = "api") := by
  refine ⟨fun _ _ _ _ s _ => by cases s <;> simp, ?_, ?_, ?_⟩
  · intro city hcity rec ts now up p h
    rw [resolveGET_found_fresh city hcity rec ts now up p h]
  · intro city hcity now geo current p
    simp [resolveGET, hcity]
  · intro nowIso now cached hasKey axios d s h
    exact Or.inl (express_success_source_cache nowIso now cached hasKey axios d s h)

theorem provenance_tag_cache_or_api_witness :
    (resolveGET (some [112]) 1000
        ⟨true, .found ⟨sampleRec, .number 1000⟩, .geoNotFound, .succeeded⟩).1
      = .ok sampleRec .cache :=
  provenance_tag_cache_or_api.2.1 [112] (by decide) sampleRec (.number 1000) 1000
    .geoNotFound .succeeded (by decide)

/-- C8: an upstream payload whose weather code is absent from the WMO
lookup table yields `description = "Unknown Condition"`, and a resolve
call consuming such a payload still succeeds, returning the record tagged
`api` rather than an error. -/
theorem unknown_weather_code_fallback (geoCityName country : String)
    (current : CurrentPayload) (h : WEATHER_CODE_MAP current.weather_code = none)
    (city : JsString) (hcity : city ≠ []) (now : Int) (geo : GeoResult) (p : PutOutcome) :
    (transformData geoCityName country current).description = "Unknown Condition" ∧
    (resolveGET (some city) now ⟨true, .missing, .success geo current, p⟩).1
      = .ok (transformData geo.name geo.country current) .api := by
  refine ⟨?_, by simp [resolveGET, hcity]⟩
  simp [transformData, h]

theorem unknown_weather_code_fallback_witness :
    (transformData "Paris" "France" ⟨18, 17, 1, 42, 5, 8, 40, 10, "t0", some 20, some 9⟩).description
      = "Unknown Condition" :=
  (unknown_weather_code_fallback "Paris" "France"
    ⟨18, 17, 1, 42, 5, 8, 40, 10, "t0", some 20, some 9⟩ (by decide)
    [112] (by decide) 1000 ⟨2, 3, "Paris", "France"⟩ .succeeded).1

/-- C9: `getTimestampInMs` is total over the stored timestamp shapes —
`toMillis()` for an object with a callable `toMillis`, the value itself
for a number, `0` for every other shape — so an entry whose persisted
timestamp is malformed reads as stored at time `0` and is a miss whenever
`now ≥ CACHE_DURATION_MS`: the upstream fetch runs and the call never
returns a cache-tagged record. -/
theorem timestamp_conversion_total (m n : Int) (city : JsString) (hcity : city ≠ [])
    (rec : WeatherRec) (now : Int) (hnow : CACHE_DURATION_MS ≤ now)
    (up : UpstreamResponse) (p : PutOutcome) :
    getTimestampInMs (.tsObject m) = m ∧
    getTimestampInMs (.number n) = n ∧
    getTimestampInMs .malformed = 0 ∧
    fetchCount (resolveGET (some city) now ⟨true, .found ⟨rec, .malformed⟩, up, p⟩).2 = 1 ∧
    (∀ r, (resolveGET (some city) now ⟨true, .found ⟨rec, .malformed⟩, up, p⟩).1
        ≠ .ok r .cache) := by
  have hstale := resolveGET_found_stale city hcity rec .malformed now up p
    (by show ¬(now - 0 < CACHE_DURATION_MS); omega)
  refine ⟨rfl, rfl, rfl, ?_, ?_⟩
  · rw [hstale]
    exact (resolveGET_missing_fetches city hcity now up p).1
  · rw [hstale]
    exact (resolveGET_missing_fetches city hcity now up p).2

theorem timestamp_conversion_total_witness :
    getTimestampInMs (.tsObject 7) = 7 ∧
    fetchCount (resolveGET (some [112]) CACHE_DURATION_MS
        ⟨true, .found ⟨sampleRec, .malformed⟩, .geoNotFound, .succeeded⟩).2 = 1 :=
  ⟨(timestamp_conversion_total 7 0 [112] (by decide) sampleRec CACHE_DURATION_MS
      (by omega) .geoNotFound .succeeded).1,
   (timestamp_conversion_total 7 0 [112] (by decide) sampleRec CACHE_DURATION_MS
      (by omega) .geoNotFound .succeeded).2.2.2.1⟩

/-- C10 counterexample: in the app-router handler, with the secret-token
environment variable unset, a request carrying no x-api-key header is
rejected, not accepted: the absent header reads as `null`, the unset
variable as `undefined`, and `null !== undefined`, so the check fails
with 401. -/
theorem app_router_rejects_absent_key_unset_token :
    appRouterAuthAccepts none none = false := rfl

/-- C10 (amended): each handler accepts exactly when the JavaScript
strict-equality comparison of header value and configured token succeeds.
The pages-router handler accepts an absent header with an unset token
(`undefined === undefined`) and otherwise only matching strings; the
app-router handler rejects an absent header even when the token is unset
(`null !== undefined`) and accepts only matching strings. -/
theorem api_key_check_strict_equality (hd tk : Option String) :
    (appRouterAuthAccepts hd tk = true ↔ (∃ s, hd = some s ∧ tk = some s)) ∧
    (pagesRouterAuthAccepts hd tk = true ↔
      ((hd = none ∧ tk = none) ∨ ∃ s, hd = some s ∧ tk = some s)) := by
  obtain _ | hs := hd <;> obtain _ | ts := tk <;>
    simp [appRouterAuthAccepts, pagesRouterAuthAccepts, appRouterHeaderVal,
      pagesRouterHeaderVal, envVal]
  exact eq_comm

theorem api_key_check_strict_equality_witness :
    appRouterAuthAccepts (some "tok") (some "tok") = true :=
  (api_key_check_strict_equality (some "tok") (some "tok")).1.mpr ⟨"tok", rfl, rfl⟩

end CachingProxy
